import Mathlib

/-!
Verification development for the `zfit` coordinate/domain algebra
(`zfit/core/space_new.py`).

The Python module is shallowly embedded: numeric bound entries become a
`Val` (a concrete rational or an unresolved, deferred tensor value),
Python exceptions become an explicit `PyErr` in the `Except` monad, and
Python dictionaries holding limits become association lists with
Python-like untyped keys.  Every function below mirrors the control flow
of the function of the same name in the source file; line references
point into `zfit/core/space_new.py`.
-/

/-- Python exception kinds raised by the embedded code.  The names mirror
the exception classes imported in `space_new.py` plus the relevant Python
builtin errors (TypeError, KeyError, ...). -/
inductive PyErr where
  | coordinatesUnderdefined
  | coordinatesIncompatible
  | obsIncompatible
  | axesIncompatible
  | overdefined
  | spaceIncompatible
  | limitsIncompatible
  | workInProgress
  | cannotConvertToNumpy
  | illegalInGraphMode
  | multipleLimitsNotImplemented
  | shapeIncompatible
  | typeError
  | valueError
  | keyError
  | indexError
  | attributeError
  | nameError
  | assertionError
  deriving DecidableEq, Repr

/-- A numeric value appearing in limits: either a concrete number
(modelled as a rational) or a deferred/graph-mode tensor value that
cannot be materialized to a concrete number in the current evaluation
context (`z.unstable._try_convert_numpy` raises on it).  The `id`
distinguishes unrelated symbolic values. -/
inductive Val where
  | concrete (q : ℚ)
  | deferredV (id : Nat)
  deriving DecidableEq, Repr

/-- Monadic map over a list in the `Except` monad, failing at the first
error; mirrors a Python list comprehension over calls that may raise. -/
def mapME (f : α → Except PyErr β) : List α → Except PyErr (List β)
  | [] => .ok []
  | x :: xs => do
    let y ← f x
    let ys ← mapME f xs
    .ok (y :: ys)

/-- Short-circuiting `all(...)` over a generator of possibly-raising
calls, as Python's `all` evaluates lazily. -/
def allME (f : α → Except PyErr Bool) : List α → Except PyErr Bool
  | [] => .ok true
  | x :: xs => do
    let b ← f x
    if b then allME f xs else .ok false

/-- Short-circuiting `any(...)` over a generator of possibly-raising
calls. -/
def anyME (f : α → Except PyErr Bool) : List α → Except PyErr Bool
  | [] => .ok false
  | x :: xs => do
    let b ← f x
    if b then .ok true else anyME f xs

/-- Monadic filter in the `Except` monad (a Python list comprehension
with a condition that may raise). -/
def filterME (f : α → Except PyErr Bool) : List α → Except PyErr (List α)
  | [] => .ok []
  | x :: xs => do
    let b ← f x
    let rest ← filterME f xs
    .ok (if b then x :: rest else rest)

/-- Python `frozenset(a) == frozenset(b)`: the two lists have the same
members. -/
def sameSet [DecidableEq α] (a b : List α) : Bool :=
  a.all (fun x => b.contains x) && b.all (fun x => a.contains x)

/-- Python `frozenset(a).issubset(b)` (equivalently
`frozenset(b).issuperset(a)`). -/
def isSubsetOf [DecidableEq α] (a b : List α) : Bool :=
  a.all (fun x => b.contains x)

/-- Python `list.index(x)`: index of the first occurrence, raising
ValueError when the element is absent. -/
def pyIndex [DecidableEq α] : List α → α → Except PyErr Nat
  | [], _ => .error .valueError
  | x :: xs, s => if x = s then .ok 0 else (pyIndex xs s).map (· + 1)

/-- Gather elements of `xs` at the given `indices` (last-axis gather /
`tuple(xs[i] for i in indices)`), raising IndexError when out of
bounds. -/
def reorderList (indices : List Nat) (xs : List α) : Except PyErr (List α) :=
  mapME (fun i =>
    match xs[i]? with
    | some v => .ok v
    | none => .error .indexError) indices

/-- Keep the first occurrence of every element, preserving order (used to
model the ordered union of observables). -/
def dedupFirst [DecidableEq α] : List α → List α
  | [] => []
  | x :: xs => x :: (dedupFirst xs).filter (fun y => y ≠ x)

/-! ### Bound sentinels (`Any`, `AnyLower`, `AnyUpper`, lines 33-100)

The source defines a singleton class `Any` whose comparison methods all
return `True`, and subclasses `AnyLower` (overriding `__ge__`/`__gt__` to
`False`) and `AnyUpper` (overriding `__le__`/`__lt__` to `False`).  The
three singletons `ANY`, `ANY_LOWER`, `ANY_UPPER` are values of the
following type; each comparison function is the method-resolution result
for the respective class.  The compared-against value is ignored by every
method, exactly as in the source. -/

inductive Sentinel where
  | anyS
  | anyLowerS
  | anyUpperS
  deriving DecidableEq, Repr

/-- Resolution of `__lt__`: `Any.__lt__` returns True; `AnyUpper`
overrides it to False; `AnyLower` inherits. -/
def sentinelLt {α : Type} : Sentinel → α → Bool
  | .anyS, _ => true
  | .anyLowerS, _ => true
  | .anyUpperS, _ => false

/-- Resolution of `__le__`: `Any.__le__` returns True; `AnyUpper`
overrides it to False; `AnyLower` inherits. -/
def sentinelLe {α : Type} : Sentinel → α → Bool
  | .anyS, _ => true
  | .anyLowerS, _ => true
  | .anyUpperS, _ => false

/-- Resolution of `__ge__`: `Any.__ge__` returns True; `AnyLower`
overrides it to False; `AnyUpper` inherits. -/
def sentinelGe {α : Type} : Sentinel → α → Bool
  | .anyS, _ => true
  | .anyLowerS, _ => false
  | .anyUpperS, _ => true

/-- Resolution of `__gt__`: `Any.__gt__` returns True; `AnyLower`
overrides it to False; `AnyUpper` inherits. -/
def sentinelGt {α : Type} : Sentinel → α → Bool
  | .anyS, _ => true
  | .anyLowerS, _ => false
  | .anyUpperS, _ => true

/-! ### `inside_rect_limits` (lines 111-122)

Tests each row of `x` (shape `(nevents, n_obs)`, enforced here by the
type, where the source raises on `ndims <= 1`) against the closed box:
`reduce_all(x <= upper) and reduce_all(x >= lower)` along the last
axis. -/

def inside_rect_limits (x : List (List ℚ)) (lower upper : List ℚ) : List Bool :=
  x.map (fun row =>
    let below_upper := (row.zip upper).all (fun p => decide (p.1 ≤ p.2))
    let above_lower := (row.zip lower).all (fun p => decide (p.1 ≥ p.2))
    above_lower && below_upper)

/-! ### Coordinates (lines 159-387) -/

/-- `Coordinates`: an ordered collection of dimension identifiers, as
names (`obs`) and/or integer positions (`axes`). -/
structure Coordinates where
  obs : Option (List String)
  axes : Option (List Int)
  deriving DecidableEq, Repr

/-- Number of dimensions (`n_obs` as computed in
`_check_convert_obs_axes`). -/
def Coordinates.n_obs (c : Coordinates) : Nat :=
  match c.obs with
  | some o => o.length
  | none =>
    match c.axes with
    | some a => a.length
    | none => 0

/-- The constructor checks of `Coordinates._check_convert_obs_axes`
(lines 166-185): at least one of obs/axes must be given, and when both
are given their lengths must agree.  No duplicate check is performed. -/
def mkCoordinates (obs : Option (List String)) (axes : Option (List Int)) :
    Except PyErr Coordinates :=
  match obs with
  | none =>
    match axes with
    | none => .error .coordinatesUnderdefined
    | some _ => .ok ⟨none, axes⟩
  | some o =>
    match axes with
    | none => .ok ⟨some o, none⟩
    | some a =>
      if o.length = a.length then .ok ⟨some o, some a⟩
      else .error .coordinatesIncompatible

/-- The constructor invariants as a Boolean predicate: exactly what
`mkCoordinates` accepts. -/
def coordsValid (c : Coordinates) : Bool :=
  (c.obs.isSome || c.axes.isSome) &&
    (match c.obs, c.axes with
     | some o, some a => o.length == a.length
     | _, _ => true)

/-- `Coordinates.get_reorder_indices` (lines 280-306): for each element
of the requested order that is present in the current order, its index in
the current order. -/
def Coordinates.get_reorder_indices (c : Coordinates)
    (obs : Option (List String)) (axes : Option (List Int)) :
    Except PyErr (List Nat) :=
  let obs_is_defined := c.obs.isSome && obs.isSome
  let axes_is_defined := c.axes.isSome && axes.isSome
  if !obs_is_defined && !axes_is_defined then .error .valueError
  else if obs_is_defined then
    match c.obs, obs with
    | some old, some req => mapME (pyIndex old) (req.filter (fun x => old.contains x))
    | _, _ => .error .valueError
  else
    match c.axes, axes with
    | some old, some req => mapME (pyIndex old) (req.filter (fun x => old.contains x))
    | _, _ => .error .valueError

/-- `Coordinates.with_obs` (lines 199-220).  `None` drops the obs
(requiring axes); otherwise, unless the requested set equals the current
one, a superset raises when not allowed and a subset raises when not
allowed; then the coordinates are reordered by the reorder indices.  A
partially-overlapping or disjoint request passes both checks and gets
reduced to the intersection. -/
def Coordinates.with_obs (c : Coordinates) (obs : Option (List String))
    (allow_superset allow_subset : Bool) : Except PyErr Coordinates :=
  match obs with
  | none =>
    match c.axes with
    | none => .error .axesIncompatible
    | some _ => mkCoordinates none c.axes
  | some l =>
    match c.obs with
    | none => .error .typeError
    | some o =>
      if !(sameSet l o) && (!allow_superset && isSubsetOf o l) then
        .error .obsIncompatible
      else if !(sameSet l o) && (!allow_subset && isSubsetOf l o) then
        .error .obsIncompatible
      else do
        let indices ← c.get_reorder_indices (some l) none
        let newObs ←
          match c.obs with
          | none => pure none
          | some o2 => do
            let r ← reorderList indices o2
            pure (some r)
        let newAxes ←
          match c.axes with
          | none => pure none
          | some a2 => do
            let r ← reorderList indices a2
            pure (some r)
        mkCoordinates newObs newAxes

/-- `Coordinates.with_axes` (lines 222-251), symmetric to
`with_obs`. -/
def Coordinates.with_axes (c : Coordinates) (axes : Option (List Int))
    (allow_superset allow_subset : Bool) : Except PyErr Coordinates :=
  match axes with
  | none =>
    match c.obs with
    | none => .error .obsIncompatible
    | some _ => mkCoordinates c.obs none
  | some l =>
    match c.axes with
    | none => .error .typeError
    | some a =>
      if !(sameSet l a) && (!allow_superset && isSubsetOf a l) then
        .error .axesIncompatible
      else if !(sameSet l a) && (!allow_subset && isSubsetOf l a) then
        .error .axesIncompatible
      else do
        let indices ← c.get_reorder_indices none (some l)
        let newObs ←
          match c.obs with
          | none => pure none
          | some o2 => do
            let r ← reorderList indices o2
            pure (some r)
        let newAxes ←
          match c.axes with
          | none => pure none
          | some a2 => do
            let r ← reorderList indices a2
            pure (some r)
        mkCoordinates newObs newAxes

/-- `Coordinates.__eq__` (lines 370-381): equal when the obs sets are
both present and coincide, or when the axes sets are both present and
coincide. -/
def coordsEq (c1 c2 : Coordinates) : Bool :=
  let obs_equal :=
    match c1.obs, c2.obs with
    | some a, some b => sameSet a b
    | _, _ => false
  let axes_equal :=
    match c1.axes, c2.axes with
    | some a, some b => sameSet a b
    | _, _ => false
  obs_equal || axes_equal

/-! ### Limit (lines 390-621)

A `Limit` stores `_limit_fn` (None, False, or a callable — callables are
compared by identity, modelled by a numeric id), `_rect_limits` (None,
False, or a `(lower, upper)` pair of bound rows), `n_obs`, and the
`_is_rect` flag (None for the early unset/false returns).  Bounds are
modelled as a single row of `Val`s; the source stores shape-
`(1, n_obs)` arrays whose last-axis length is the row length here. -/

inductive LimitFn where
  | noneF
  | falseF
  | funcF (fid : Nat)
  deriving DecidableEq, Repr

inductive RectState where
  | unsetS
  | falseS
  | rectS (lower upper : List Val)
  deriving DecidableEq, Repr

structure Limit where
  limit_fn : LimitFn
  rect : RectState
  n_obs : Option Nat
  is_rect : Option Bool
  deriving DecidableEq, Repr

/-- A bound as passed by the caller: a scalar (broadcast to `(1, 1)`) or
a 1-D vector (expanded to `(1, n)`), per `Limit._sanitize_rect_limit`
(lines 464-471). -/
inductive BoundInput where
  | scalarB (v : Val)
  | vecB (l : List Val)
  deriving DecidableEq, Repr

def sanitizeRectLimit : BoundInput → List Val
  | .scalarB v => [v]
  | .vecB l => l

/-- An argument to the `Limit` constructor, for both the `limit_fn` and
the `rect_limits` parameter: None, False, a `(lower, upper)` pair, or a
callable. -/
inductive LimArg where
  | noneA
  | falseA
  | pairA (lower upper : BoundInput)
  | callA (fid : Nat)
  deriving DecidableEq, Repr

/-- `Limit._check_convert_input_limits` (lines 402-462) followed by the
field assignment in `Limit.__init__`.  The ZfitLimit-copy branch is not
representable in the argument type and is omitted; every other branch is
reproduced: the early returns for False/None inputs, the swap
`limits_fn, rect_limits = rect_limits, None` when `limits_fn` is None, the
non-callable reassignment, the ValueError for a callable without a
bounding box, the TypeError from unpacking a non-pair, the equal-length
check of lower and upper, and the check against a given `n_obs`.
Sublimits are computed on demand by `Limit.sublimits` below. -/
def limitInit (limits_fn0 rect_limits0 : LimArg) (n_obs0 : Option Nat) :
    Except PyErr Limit := do
  match limits_fn0, rect_limits0 with
  | .falseA, .falseA => return ⟨.falseF, .falseS, n_obs0, none⟩
  | .falseA, .noneA => return ⟨.falseF, .falseS, n_obs0, none⟩
  | .noneA, .falseA => return ⟨.falseF, .falseS, n_obs0, none⟩
  | .noneA, .noneA => return ⟨.noneF, .unsetS, n_obs0, none⟩
  | _, _ =>
    let fn1 : LimArg := match limits_fn0 with
      | .noneA => rect_limits0
      | f => f
    let rect1 : LimArg := match limits_fn0 with
      | .noneA => .noneA
      | _ => rect_limits0
    let step : Except PyErr (LimitFn × LimArg × Bool) :=
      match fn1 with
      | .callA fid =>
        match rect1 with
        | .noneA => .error .valueError
        | .falseA => .error .valueError
        | r => .ok (.funcF fid, r, false)
      | f => .ok (.noneF, f, true)
    let (fnFinal, rectFinal, limits_are_rect) ← step
    match rectFinal with
    | .pairA lo0 up0 =>
      let lower := sanitizeRectLimit lo0
      let upper := sanitizeRectLimit up0
      if lower.length ≠ upper.length then throw .valueError
      else do
        match n_obs0 with
        | some n => if lower.length ≠ n then throw .valueError else pure ()
        | none => pure ()
        return ⟨fnFinal, .rectS lower upper, some lower.length, some limits_are_rect⟩
    | _ => throw .typeError

/-- `Limit.limits_not_set` (lines 535-537): the raw rect limits are
None. -/
def Limit.limits_not_set (l : Limit) : Bool :=
  match l.rect with
  | .unsetS => true
  | _ => false

/-- `Limit.has_limits` (lines 539-541). -/
def Limit.has_limits (l : Limit) : Bool :=
  (match l.rect with
   | .falseS => false
   | _ => true) && !l.limits_not_set

/-- `Limit.has_rect_limits` (lines 473-475): limits are set and the
stored `_is_rect` flag is True. -/
def Limit.has_rect_limits (l : Limit) : Bool :=
  l.has_limits && (l.is_rect == some true)

/-- The per-dimension decomposition built in lines 450-460: a purely
rectangular limit with `n_obs > 1` splits into single-dimension
rectangular limits; any other limit is its own sole sublimit. -/
def Limit.sublimits (l : Limit) : List Limit :=
  match l.rect, l.is_rect with
  | .rectS lo up, some true =>
    if lo.length > 1 then
      (lo.zip up).map (fun p => ⟨.noneF, .rectS [p.1] [p.2], some 1, some true⟩)
    else [l]
  | _, _ => [l]

/-- `Limit._rect_limits_np` (lines 487-501): unpack the raw rect limits
(TypeError when they are None/False, as unpacking fails) and materialize
each entry to a concrete number. -/
def tryConvertNumpy : Val → Except PyErr ℚ
  | .concrete q => .ok q
  | .deferredV _ => .error .cannotConvertToNumpy

/-- Modelled from the spec: `z.unstable._try_convert_numpy` lives in the
numeric backend (`zfit.z`), which is not under `src/`; spec section 6
describes it as the "materialize to concrete, fail if unresolved"
primitive.  `Limit._rect_limits_np` applies it to both bound rows. -/
def Limit.rect_limits_np (l : Limit) : Except PyErr (List ℚ × List ℚ) :=
  match l.rect with
  | .rectS lo up => do
    let lo2 ← mapME tryConvertNumpy lo
    let up2 ← mapME tryConvertNumpy up
    .ok (lo2, up2)
  | _ => .error .typeError

/-- The `try:` block shared by `less_equal_limits` and `equal_limits`:
resolve the first limit's bounds, then the second's. -/
def resolvePair (l1 l2 : Limit) :
    Except PyErr ((List ℚ × List ℚ) × (List ℚ × List ℚ)) := do
  let a ← l1.rect_limits_np
  let b ← l2.rect_limits_np
  .ok (a, b)

/-- Result of a limit comparison: a resolved Boolean, or a symbolic
(deferred, graph-mode) Boolean tensor built from unresolved bounds. -/
inductive CmpRes where
  | res (b : Bool)
  | symbolicR
  deriving DecidableEq, Repr

/-- Elementwise `<=` reduced along the last axis. -/
def listLeQ (a b : List ℚ) : Bool :=
  (a.zip b).all (fun p => decide (p.1 ≤ p.2))

/-- Elementwise closeness reduced over everything; the source uses
`allclose` (with a TODO to add tolerances), modelled as exact equality on
the rationals. -/
def listEqQ (a b : List ℚ) : Bool :=
  (a.zip b).all (fun p => p.1 == p.2)

/-- `less_equal_limits` (lines 584-601): try to resolve both bound
pairs; on `CannotConvertToNumpyError` either raise
`IllegalInGraphModeError` (`allow_graph=False`) or fall back to the
symbolic tensors (`allow_graph=True`).  The comparison itself is
`reduce_all(lower1 <= lower2) and reduce_all(upper1 <= upper2) and
limit_fn1 == limit_fn2`. -/
def less_equal_limits (l1 l2 : Limit) (allow_graph : Bool) :
    Except PyErr CmpRes :=
  match resolvePair l1 l2 with
  | .ok ((lo1, up1), (lo2, up2)) =>
    .ok (.res (listLeQ lo1 lo2 && listLeQ up1 up2 && (l1.limit_fn == l2.limit_fn)))
  | .error .cannotConvertToNumpy =>
    if !allow_graph then .error .illegalInGraphMode
    else .ok .symbolicR
  | .error e => .error e

/-- `equal_limits` (lines 604-621), with the same try/except structure
as `less_equal_limits` and an `allclose`-based body. -/
def equal_limits (l1 l2 : Limit) (allow_graph : Bool) :
    Except PyErr CmpRes :=
  match resolvePair l1 l2 with
  | .ok ((lo1, up1), (lo2, up2)) =>
    .ok (.res (listEqQ lo1 lo2 && listEqQ up1 up2 && (l1.limit_fn == l2.limit_fn)))
  | .error .cannotConvertToNumpy =>
    if !allow_graph then .error .illegalInGraphMode
    else .ok .symbolicR
  | .error e => .error e

/-! ### Space (lines 624-1483)

`Space._limits_dict` is a Python dict of the shape
`{"obs": {key: Limit}, "axes": {key: Limit}}`.  Keys of the inner dicts
are tuples of observables or of axes — except that `combine_spaces_new`
stores bare strings/ints as keys, and its broken limit extraction stores
generator objects as values; both are representable below.  The outer
dict may also end up holding an inner dict's entries directly (the
`with_obs(None)`/`with_axes(None)` paths pass the inner dict as the new
`limits`), which `OuterVal.entryO` represents. -/

inductive PyKey where
  | strK (s : String)
  | obsTupK (t : List String)
  | axesTupK (t : List Int)
  | intK (i : Int)
  deriving DecidableEq, Repr

/-- A value of an inner limits dict: a `Limit`, or an unevaluated
generator object (as stored by `combine_spaces_new`), identified by a
number. -/
inductive Entry where
  | limitE (l : Limit)
  | genE (gid : Nat)
  deriving DecidableEq, Repr

inductive OuterVal where
  | dictO (d : List (PyKey × Entry))
  | entryO (e : Entry)
  deriving DecidableEq, Repr

abbrev InnerDict := List (PyKey × Entry)

abbrev PyDict := List (PyKey × OuterVal)

/-- Python `dict.get(key)`. -/
def dictGetVal (d : PyDict) (k : PyKey) : Option OuterVal :=
  (d.find? (fun kv => kv.1 == k)).map (fun kv => kv.2)

/-- The `obs` argument of the `Space` constructor: None, a tuple of
names, or a `ZfitOrderableDimensional` (a `Coordinates`). -/
inductive ObsArg where
  | noneO
  | listO (l : List String)
  | coordsO (c : Coordinates)
  deriving DecidableEq, Repr

inductive AxesArg where
  | noneX
  | listX (l : List Int)
  deriving DecidableEq, Repr

/-- The `limits`/`rect_limits` arguments of the `Space` constructor:
None, False, a limits dict, a `(lower, upper)` pair, or a callable. -/
inductive SLimArg where
  | noneSL
  | falseSL
  | dictSL (d : PyDict)
  | pairSL (lower upper : BoundInput)
  | callSL (fid : Nat)
  deriving DecidableEq, Repr

/-- The `name` argument: not passed (default "Space"), passed as None
(which `Space.__init__` replaces by "space", line 845), or a string. -/
inductive NameArg where
  | defaultN
  | noneN
  | strN (s : String)
  deriving DecidableEq, Repr

def slimToLimArg : SLimArg → LimArg
  | .noneSL => .noneA
  | .falseSL => .falseA
  | .pairSL lo up => .pairA lo up
  | .callSL fid => .callA fid
  | .dictSL _ => .noneA

structure Space where
  coords : Coordinates
  limits_dict : PyDict
  name : String
  deriving DecidableEq, Repr

def Space.n_obs (s : Space) : Nat := s.coords.n_obs

/-- The key-slicing loop of `Space._check_convert_input_limits` (lines
932-939): each sublimit is keyed by the slice `obs[i_old:i]`
(resp. `axes[i_old:i]`) of the space's coordinates, where `i` advances by
the sublimit's `n_obs` (TypeError when that is None). -/
def sliceKeysGo (obs : Option (List String)) (axes : Option (List Int)) :
    Nat → List Limit → Except PyErr (InnerDict × InnerDict)
  | _, [] => .ok ([], [])
  | i_old, lim :: rest => do
    let n ← match lim.n_obs with
      | some n => pure n
      | none => throw .typeError
    let (oRest, aRest) ← sliceKeysGo obs axes (i_old + n) rest
    let oAcc : InnerDict := match obs with
      | some o => (PyKey.obsTupK ((o.drop i_old).take n), Entry.limitE lim) :: oRest
      | none => oRest
    let aAcc : InnerDict := match axes with
      | some a => (PyKey.axesTupK ((a.drop i_old).take n), Entry.limitE lim) :: aRest
      | none => aRest
    .ok (oAcc, aAcc)

/-- `Space._check_convert_input_limits` (lines 915-946): a dict given as
`limits` (or else as `rect_limits`) is taken as the limits dict verbatim;
otherwise a `Limit` is built and split into sublimits keyed by coordinate
slices under the available addressing schemes. -/
def checkConvertInputLimitsSpace (limit rect : SLimArg)
    (obs : Option (List String)) (axes : Option (List Int)) (n_obs : Nat) :
    Except PyErr PyDict :=
  match limit with
  | .dictSL d => .ok d
  | _ =>
    match rect with
    | .dictSL d => .ok d
    | _ => do
      let l ← limitInit (slimToLimArg limit) (slimToLimArg rect) (some n_obs)
      let (oInner, aInner) ← sliceKeysGo obs axes 0 l.sublimits
      let d1 : PyDict := match obs with
        | some _ => [(PyKey.strK ("obs"), OuterVal.dictO oInner)]
        | none => []
      let d2 : PyDict := match axes with
        | some _ => [(PyKey.strK ("axes"), OuterVal.dictO aInner)]
        | none => []
      .ok (d1 ++ d2)

/-- `Space.__init__` (lines 832-850): resolve the name default, build the
coordinates (a `Coordinates` passed as `obs` is taken over as-is, and
combining it with `axes` raises OverdefinedError, lines 168-173), then
normalize the limits. -/
def spaceInit (obs : ObsArg) (limits : SLimArg) (axes : AxesArg)
    (rect_limits : SLimArg) (name : NameArg) : Except PyErr Space := do
  let nm := match name with
    | .defaultN => "Space"
    | .noneN => "space"
    | .strN s => s
  let coords ← match obs, axes with
    | .coordsO c, .noneX => pure c
    | .coordsO _, .listX _ => throw .overdefined
    | .listO o, .noneX => mkCoordinates (some o) none
    | .listO o, .listX a => mkCoordinates (some o) (some a)
    | .noneO, .noneX => mkCoordinates none none
    | .noneO, .listX a => mkCoordinates none (some a)
  let d ← checkConvertInputLimitsSpace limits rect_limits coords.obs coords.axes coords.n_obs
  return ⟨coords, d, nm⟩

/-- Accessing `.has_rect_limits` on an inner-dict value; a generator
object (stored by `combine_spaces_new`) has no such attribute. -/
def entryHasRectLimits : Entry → Except PyErr Bool
  | .limitE l => .ok l.has_rect_limits
  | .genE _ => .error .attributeError

/-- `Space.has_rect_limits` (lines 1441-1451, the later of the two
definitions in the class body, which is the one Python keeps): look up
the scheme dict (`obs` when obs are defined, else `axes`); an absent or
empty dict gives False; otherwise every stored value must report
`has_rect_limits`.  Only the obs-presence of the coordinates and the
limits dict are consulted, which the explicit `obsIsSome` argument makes
usable for rewriting. -/
def hasRectLimitsAux (obsIsSome : Bool) (d : PyDict) : Except PyErr Bool :=
  match dictGetVal d (.strK (if obsIsSome then ("obs") else ("axes"))) with
  | none => .ok false
  | some (.entryO _) => .error .attributeError
  | some (.dictO inner) =>
    if inner.isEmpty then .ok false
    else do
      let bs ← mapME (fun kv => entryHasRectLimits kv.2) inner
      .ok (bs.all id && !bs.isEmpty)

def Space.has_rect_limits (s : Space) : Except PyErr Bool :=
  hasRectLimitsAux s.coords.obs.isSome s.limits_dict

/-- `Space.limits_not_set` (lines 1076-1078): the limits dict is
empty. -/
def Space.limits_not_set (s : Space) : Bool := s.limits_dict.isEmpty

/-- `Space.has_limits` (lines 1072-1074):
`(not limits_not_set) and (has_rect_limits is not False)`, with Python's
short-circuiting `and`. -/
def hasLimitsAux (obsIsSome : Bool) (d : PyDict) : Except PyErr Bool :=
  if d.isEmpty then .ok false
  else hasRectLimitsAux obsIsSome d

def Space.has_limits (s : Space) : Except PyErr Bool :=
  hasLimitsAux s.coords.obs.isSome s.limits_dict

/-- `Space.limits_are_false` (lines 1084-1086):
`limits_are_set and not has_limits`. -/
def Space.limits_are_false (s : Space) : Except PyErr Bool :=
  if s.limits_dict.isEmpty then .ok false
  else do
    let hl ← s.has_limits
    .ok !hl

/-- Evaluating `obs_limit[0]` and its `isinstance(..., str)` test on a
stored key (line 1051): an empty tuple/string raises IndexError, an
integer key is not subscriptable. -/
def keyFirstIsStr : PyKey → Except PyErr Bool
  | .obsTupK [] => .error .indexError
  | .obsTupK _ => .ok true
  | .strK s => if s.length = 0 then .error .indexError else .ok true
  | .axesTupK [] => .error .indexError
  | .axesTupK _ => .ok false
  | .intK _ => .error .typeError

/-- The dims a key contributes via `limits_obs.extend(obs_limit)`; a bare
string key is iterated character by character. -/
def keyObsDims : PyKey → List String
  | .obsTupK t => t
  | .strK s => s.toList.map (fun ch => String.mk [ch])
  | _ => []

def keyAxesDims : PyKey → List Int
  | .axesTupK t => t
  | .intK i => [i]
  | _ => []

/-- Unpacking `lower, upper = limit.rect_limits` on an inner-dict value:
a generator has no `rect_limits` attribute, and unpacking None/False
raises TypeError. -/
def entryRectRows : Entry → Except PyErr (List Val × List Val)
  | .genE _ => .error .attributeError
  | .limitE l =>
    match l.rect with
    | .rectS lo up => .ok (lo, up)
    | _ => .error .typeError

/-- The collection loop of `Space._rect_limits_z` (lines 1050-1056) for
the obs scheme: keep entries whose key is string-like, accumulate their
dims and bound rows in dict order. -/
def rectZCollectObs : InnerDict → Except PyErr (List String × List Val × List Val)
  | [] => .ok ([], [], [])
  | (k, e) :: rest => do
    let isStr ← keyFirstIsStr k
    if !isStr then rectZCollectObs rest
    else do
      let (lo, up) ← entryRectRows e
      let (dims, los, ups) ← rectZCollectObs rest
      .ok (keyObsDims k ++ dims, lo ++ los, up ++ ups)

/-- The collection loop of `Space._rect_limits_z` for the axes scheme:
keep entries whose key is int-like. -/
def rectZCollectAxes : InnerDict → Except PyErr (List Int × List Val × List Val)
  | [] => .ok ([], [], [])
  | (k, e) :: rest => do
    let isStr ← keyFirstIsStr k
    if isStr then rectZCollectAxes rest
    else do
      let (lo, up) ← entryRectRows e
      let (dims, los, ups) ← rectZCollectAxes rest
      .ok (keyAxesDims k ++ dims, lo ++ los, up ++ ups)

/-- `Space._rect_limits_z` (lines 1044-1064): concatenate the bound rows
of all stored limits in the active scheme, then reorder into the space's
own coordinate order with `reorder_x` (gather at
`tuple(limits_obs.index(o) for o in self.obs)`, line 2070-2072). -/
def Space.rectLimitsZ (s : Space) : Except PyErr (List Val × List Val) := do
  match s.coords.obs with
  | some target =>
    match dictGetVal s.limits_dict (.strK ("obs")) with
    | none => throw .keyError
    | some (.entryO _) => throw .typeError
    | some (.dictO inner) => do
      let (limits_obs, los, ups) ← rectZCollectObs inner
      let indices ← mapME (pyIndex limits_obs) target
      let lo ← reorderList indices los
      let up ← reorderList indices ups
      .ok (lo, up)
  | none =>
    match s.coords.axes with
    | some target =>
      match dictGetVal s.limits_dict (.strK ("axes")) with
      | none => throw .keyError
      | some (.entryO _) => throw .typeError
      | some (.dictO inner) => do
        let (limits_axes, los, ups) ← rectZCollectAxes inner
        let indices ← mapME (pyIndex limits_axes) target
        let lo ← reorderList indices los
        let up ← reorderList indices ups
        .ok (lo, up)
    | none => throw .valueError

/-- Result of the `Space.rect_limits` property: `False` when the space
has no rectangular limits, else the ordered `(lower, upper)` rows. -/
inductive RectRes where
  | falseR
  | rectR (lower upper : List Val)
  deriving DecidableEq, Repr

/-- `Space.rect_limits` (lines 1014-1026). -/
def Space.rect_limits (s : Space) : Except PyErr RectRes := do
  let hrl ← s.has_rect_limits
  if !hrl then return .falseR
  let (lo, up) ← s.rectLimitsZ
  return .rectR lo up

/-- `Space.rect_lower` (lines 1127-1134): `rect_limits[0]`; subscripting
the Boolean `False` raises TypeError. -/
def Space.rect_lower (s : Space) : Except PyErr (List Val) := do
  match ← s.rect_limits with
  | .falseR => throw .typeError
  | .rectR lo _ => return lo

/-- `Space.rect_upper` (lines 1147-1154). -/
def Space.rect_upper (s : Space) : Except PyErr (List Val) := do
  match ← s.rect_limits with
  | .falseR => throw .typeError
  | .rectR _ up => return up

/-! ### `Space.copy` and the Python call protocol (lines 1416-1437)

`copy` assembles a kwargs dict from the four structural attributes,
*updates it with the overrides first*, then tests
`set(overwrite_kwargs) - set(kwargs)` — which is empty by construction —
and finally calls the constructor with the merged kwargs.  Keyword
values are modelled by `KwVal`; calling the constructor dispatches each
keyword to the matching parameter and raises TypeError on an unexpected
keyword, as Python's call protocol does. -/

inductive KwVal where
  | noneK
  | falseK
  | strKV (s : String)
  | obsKV (l : List String)
  | axesKV (l : List Int)
  | dictKV (d : PyDict)
  | pairKV (lower upper : BoundInput)
  | coordsKV (c : Coordinates)
  deriving DecidableEq, Repr

/-- Python `dict.update`: replace existing keys in place, append new
ones. -/
def dictUpdateKw (base : List (String × KwVal)) :
    List (String × KwVal) → List (String × KwVal)
  | [] => base
  | (k, v) :: rest =>
    dictUpdateKw
      (if (base.map (fun kv => kv.1)).contains k then
        base.map (fun kv => if kv.1 == k then (k, v) else kv)
      else base ++ [(k, v)]) rest

def kwGet (kwargs : List (String × KwVal)) (k : String) : Option KwVal :=
  (kwargs.find? (fun kv => kv.1 == k)).map (fun kv => kv.2)

/-- The parameters accepted by `Space.__init__` (line 832):
`obs, limits, axes, rect_limits, name`. -/
def spaceCtorParams : List String :=
  ["obs", "limits", "axes", "rect_limits", "name"]

/-- Calling `Space(**kwargs)`: an unexpected keyword raises TypeError;
otherwise each provided value is dispatched to its parameter and
`spaceInit` runs. -/
def callSpace (kwargs : List (String × KwVal)) : Except PyErr Space := do
  if kwargs.any (fun kv => !(spaceCtorParams.contains kv.1)) then
    throw .typeError
  let obsArg : ObsArg ←
    match kwGet kwargs ("obs") with
    | none => pure .noneO
    | some .noneK => pure .noneO
    | some (.obsKV l) => pure (.listO l)
    | some (.coordsKV c) => pure (.coordsO c)
    | some _ => throw .typeError
  let limitsArg : SLimArg ←
    match kwGet kwargs ("limits") with
    | none => pure .noneSL
    | some .noneK => pure .noneSL
    | some .falseK => pure .falseSL
    | some (.dictKV d) => pure (.dictSL d)
    | some (.pairKV lo up) => pure (.pairSL lo up)
    | some _ => throw .typeError
  let axesArg : AxesArg ←
    match kwGet kwargs ("axes") with
    | none => pure .noneX
    | some .noneK => pure .noneX
    | some (.axesKV l) => pure (.listX l)
    | some _ => throw .typeError
  let rectArg : SLimArg ←
    match kwGet kwargs ("rect_limits") with
    | none => pure .noneSL
    | some .noneK => pure .noneSL
    | some .falseK => pure .falseSL
    | some (.dictKV d) => pure (.dictSL d)
    | some (.pairKV lo up) => pure (.pairSL lo up)
    | some _ => throw .typeError
  let nameArg : NameArg ←
    match kwGet kwargs ("name") with
    | none => pure .defaultN
    | some .noneK => pure .noneN
    | some (.strKV s) => pure (.strN s)
    | some _ => throw .typeError
  spaceInit obsArg limitsArg axesArg rectArg nameArg

def obsToKw : Option (List String) → KwVal
  | none => .noneK
  | some l => .obsKV l

def axesToKw : Option (List Int) → KwVal
  | none => .noneK
  | some l => .axesKV l

/-- `Space.copy` (lines 1416-1437).  Because `kwargs.update` runs before
the difference check, `set(overwrite_kwargs) - set(kwargs)` is always
empty and the intended KeyError is unreachable; unknown keys survive to
the constructor call. -/
def Space.copy (s : Space) (overwrite : List (String × KwVal)) :
    Except PyErr Space :=
  let kwargs0 : List (String × KwVal) :=
    [("name", KwVal.strKV s.name), ("limits", KwVal.dictKV s.limits_dict),
     ("axes", axesToKw s.coords.axes), ("obs", obsToKw s.coords.obs)]
  let kwargs := dictUpdateKw kwargs0 overwrite
  if overwrite.any (fun kv => !((kwargs.map (fun p => p.1)).contains kv.1)) then
    .error .keyError
  else callSpace kwargs

/-! ### `Space.with_obs` / `Space.with_axes` / `Space.with_coords`
(lines 1222-1356) -/

/-- `Space.with_obs` (lines 1222-1248).  With `obs=None`: return self
when obs are already absent, raise when there are no axes to keep,
otherwise copy with the inner obs dict as the new limits (the inner
entries then sit at the top level of the new `_limits_dict`).  With obs
given: reorder the coordinates and rebuild through the constructor with
the same `_limits_dict`; the name is not carried over (the constructor
default applies). -/
def Space.with_obs (s : Space) (obs : Option (List String))
    (allow_superset allow_subset : Bool) : Except PyErr Space :=
  match obs with
  | none =>
    if s.coords.obs.isNone then .ok s
    else if s.coords.axes.isNone then .error .axesIncompatible
    else
      match dictGetVal s.limits_dict (.strK ("obs")) with
      | some (.dictO inner) =>
        s.copy [("obs", KwVal.noneK),
                ("limits", KwVal.dictKV (inner.map (fun kv => (kv.1, OuterVal.entryO kv.2))))]
      | some (.entryO _) => .error .typeError
      | none => .error .keyError
  | some l => do
    let coords ← s.coords.with_obs (some l) allow_superset allow_subset
    spaceInit (.coordsO coords) (.dictSL s.limits_dict) .noneX .noneSL .defaultN

/-- `Space.with_axes` (lines 1250-1285), symmetric for `axes=None` and
for axes present on both sides.  The branch that sets axes on a space
having only obs (lines 1271-1277) is broken in the source: after the
length check it iterates `self._limits_dict['obs']` unpacking each *key*
into two variables and subscripts the `index` method, so it raises
ValueError/TypeError on the first key and NameError (`new_space` never
assigned) when the dict is empty; the embedding reproduces those
outcomes. -/
def Space.with_axes (s : Space) (axes : Option (List Int))
    (allow_superset allow_subset : Bool) : Except PyErr Space :=
  match axes with
  | none =>
    if s.coords.axes.isNone then .ok s
    else if s.coords.obs.isNone then .error .obsIncompatible
    else
      match dictGetVal s.limits_dict (.strK ("axes")) with
      | some (.dictO inner) =>
        s.copy [("axes", KwVal.noneK),
                ("limits", KwVal.dictKV (inner.map (fun kv => (kv.1, OuterVal.entryO kv.2))))]
      | some (.entryO _) => .error .typeError
      | none => .error .keyError
  | some ax =>
    if s.coords.axes.isNone then
      match s.coords.obs with
      | none => .error .typeError
      | some o =>
        if ax.length ≠ o.length then .error .axesIncompatible
        else
          match dictGetVal s.limits_dict (.strK ("obs")) with
          | some (.dictO []) => .error .nameError
          | some (.dictO ((k, _) :: _)) =>
            match k with
            | .obsTupK [_, _] => .error .typeError
            | .obsTupK _ => .error .valueError
            | .strK str => if str.length = 2 then .error .typeError else .error .valueError
            | _ => .error .valueError
          | some (.entryO _) => .error .typeError
          | none => .error .keyError
    else do
      let coords ← s.coords.with_axes (some ax) allow_superset allow_subset
      spaceInit (.coordsO coords) (.dictSL s.limits_dict) .noneX .noneSL .defaultN

/-- `Space.with_coords` (lines 1324-1356): reorder by obs when both
sides have obs, by axes when both have axes; require the two results to
agree when both were produced; raise when neither applies. -/
def Space.with_coords (s : Space) (coords : Coordinates)
    (allow_superset allow_subset : Bool) : Except PyErr Space := do
  let nso : Option Space ←
    match s.coords.obs, coords.obs with
    | some _, some co => do
      let sp ← s.with_obs (some co) allow_superset allow_subset
      pure (some sp)
    | _, _ => pure none
  let nsa : Option Space ←
    match s.coords.axes, coords.axes with
    | some _, some ca => do
      let sp ← s.with_axes (some ca) allow_superset allow_subset
      pure (some sp)
    | _, _ => pure none
  match nso, nsa with
  | some so, some sa =>
    if so.coords.axes ≠ sa.coords.axes ∨ so.coords.obs ≠ sa.coords.obs then
      throw .coordinatesIncompatible
    else return sa
  | some so, none => return so
  | none, some sa => return sa
  | none, none => throw .coordinatesIncompatible

/-! ### MultiSpace (lines 1774-1985) and `add_spaces_new` (1486-1501) -/

/-- The state of a constructed `MultiSpace`: its `BaseSpace` coordinates
and the normalized tuple of alternatives. -/
structure MultiSpaceData where
  coords : Coordinates
  spaces : List Space
  name : String
  deriving DecidableEq, Repr

/-- A `ZfitSpace` value: a plain `Space` or a `MultiSpace`. -/
inductive SpaceObj where
  | single (s : Space)
  | multi (m : MultiSpaceData)
  deriving DecidableEq, Repr

def SpaceObj.obsOf : SpaceObj → Option (List String)
  | .single s => s.coords.obs
  | .multi m => m.coords.obs

def SpaceObj.axesOf : SpaceObj → Option (List Int)
  | .single s => s.coords.axes
  | .multi m => m.coords.axes

def SpaceObj.coordsOf : SpaceObj → Coordinates
  | .single s => s.coords
  | .multi m => m.coords

/-- `flatten_spaces` (lines 1770-1771): iterating a `Space` yields
itself, iterating a `MultiSpace` yields its alternatives. -/
def flattenSpaces (l : List SpaceObj) : List Space :=
  (l.map (fun so =>
    match so with
    | .single s => [s]
    | .multi m => m.spaces)).flatten

/-- The limit-definedness step of
`MultiSpace._check_convert_input_spaces_obs_axes` (lines 1820-1829): all
alternatives with limits pass through unchanged (the announced overlap
check and common-limit reduction is a bare `pass`); none with limits
collapses to the first alternative; a mixture raises
LimitsIncompatibleError. -/
def msLimitsStep (spaces : List Space) (o : Option (List String))
    (a : Option (List Int)) :
    Except PyErr (List Space × Option (List String) × Option (List Int)) := do
  let allHL ← allME Space.has_limits spaces
  if allHL then pure (spaces, o, a)
  else do
    let anyHL ← anyME Space.has_limits spaces
    if !anyHL then
      match spaces with
      | [] => throw .indexError
      | sp :: _ => pure ([sp], o, a)
    else throw .limitsIncompatible

/-- `MultiSpace._check_convert_input_spaces_obs_axes` (lines 1800-1865):
flatten, then normalize obs/axes across the alternatives — when all have
obs, reorder everyone to the first's obs and drop axes unless they all
agree; when only axes are common (and nobody has obs), reorder by axes;
otherwise SpaceIncompatibleError — and finally apply the
limit-definedness step. -/
def msCheckConvert (spaceObjs : List SpaceObj) (obs0 : Option (List String))
    (axes0 : Option (List Int)) :
    Except PyErr (List Space × Option (List String) × Option (List Int)) := do
  let spaces := flattenSpaces spaceObjs
  let all_have_obs := spaces.all (fun sp => sp.coords.obs.isSome)
  let all_have_axes := spaces.all (fun sp => sp.coords.axes.isSome)
  let axes1 : Option (List Int) ←
    if all_have_axes then
      match axes0 with
      | some a => pure (some a)
      | none =>
        match spaces with
        | [] => throw .indexError
        | sp :: _ => pure sp.coords.axes
    else pure axes0
  if all_have_obs then do
    let obs1 : List String ←
      match obs0 with
      | some o => pure o
      | none =>
        match spaces with
        | [] => throw .indexError
        | sp :: _ =>
          match sp.coords.obs with
          | some o => pure o
          | none => throw .typeError
    let spaces2 ← mapME (fun sp => sp.with_obs (some obs1) false false) spaces
    let spaces3 ←
      if !(all_have_axes && spaces2.all (fun sp => sp.coords.axes == axes1)) then
        mapME (fun sp => sp.with_axes none false false) spaces2
      else pure spaces2
    msLimitsStep spaces3 (some obs1) axes1
  else if all_have_axes then
    if spaces.all (fun sp => sp.coords.obs.isNone) then do
      let spaces2 ← mapME (fun sp => sp.with_axes axes1 false false) spaces
      msLimitsStep spaces2 obs0 axes1
    else msLimitsStep spaces obs0 axes1
  else throw .spaceIncompatible

/-- `MultiSpace.__new__` plus `__init__` (lines 1776-1791): after
normalization a single remaining alternative is returned directly (the
`__init__` of `MultiSpace` never runs on it); otherwise a `MultiSpace` is
built, its `BaseSpace` constructor creating the coordinates. -/
def msNew (spaces0 : List SpaceObj) (obs0 : Option (List String))
    (axes0 : Option (List Int)) (name : Option String) :
    Except PyErr SpaceObj := do
  let (sps, o, a) ← msCheckConvert spaces0 obs0 axes0
  match sps with
  | [sp] => return .single sp
  | _ => do
    let coords ← mkCoordinates o a
    return .multi ⟨coords, sps, name.getD ("MultiSpace")⟩

/-- `add_spaces_new` (lines 1486-1501): delegates entirely to the
`MultiSpace` constructor. -/
def add_spaces_new (spaces : List SpaceObj) : Except PyErr SpaceObj :=
  msNew spaces none none none

/-- `MultiSpace.with_obs` (lines 1934-1937): map over the alternatives
and rebuild. -/
def MultiSpaceData.with_obs (m : MultiSpaceData) (obs : Option (List String))
    (allow_superset allow_subset : Bool) : Except PyErr SpaceObj := do
  let sps ← mapME (fun sp => sp.with_obs obs allow_superset allow_subset) m.spaces
  msNew (sps.map SpaceObj.single) obs none none

/-- `MultiSpace.with_axes` (lines 1939-1942). -/
def MultiSpaceData.with_axes (m : MultiSpaceData) (axes : Option (List Int))
    (allow_superset allow_subset : Bool) : Except PyErr SpaceObj := do
  let sps ← mapME (fun sp => sp.with_axes axes allow_superset allow_subset) m.spaces
  msNew (sps.map SpaceObj.single) none axes none

/-- `MultiSpace.with_coords` (lines 1944-1947). -/
def MultiSpaceData.with_coords (m : MultiSpaceData) (coords : Coordinates)
    (allow_superset allow_subset : Bool) : Except PyErr SpaceObj := do
  let sps ← mapME (fun sp => sp.with_coords coords allow_superset allow_subset) m.spaces
  msNew (sps.map SpaceObj.single) none none none

def SpaceObj.with_coords (so : SpaceObj) (coords : Coordinates)
    (allow_superset allow_subset : Bool) : Except PyErr SpaceObj :=
  match so with
  | .single s => do
    let sp ← s.with_coords coords allow_superset allow_subset
    pure (.single sp)
  | .multi m => m.with_coords coords allow_superset allow_subset

/-! ### The deprecated `limits` property and space comparison
(lines 1002-1012, 1656-1751, 1889-1908) -/

/-- Value of the deprecated `limits` property: None (only reachable on a
MultiSpace), False, or a `(lower, upper)` pair. -/
inductive LimitsPropV where
  | noneP
  | falseP
  | rectP (lower upper : List Val)
  deriving DecidableEq, Repr

/-- `Space.limits` (lines 1002-1012): simply `rect_limits`, so never
None. -/
def Space.limitsProp (s : Space) : Except PyErr LimitsPropV := do
  match ← s.rect_limits with
  | .falseR => return .falseP
  | .rectR lo up => return .rectP lo up

/-- `MultiSpace.limits` (lines 1890-1894): None when every alternative's
`limits` is None — which a `Space` member's never is — else
MultipleLimitsNotImplementedError.  The generator inside `all` evaluates
each member's property (so propagates its exceptions) and
short-circuits. -/
def MultiSpaceData.limitsProp (m : MultiSpaceData) : Except PyErr LimitsPropV := do
  let allNone ← allME (fun sp => do
    let _ ← sp.limitsProp
    pure false) m.spaces
  if allNone then return .noneP
  else throw .multipleLimitsNotImplemented

def SpaceObj.limitsProp : SpaceObj → Except PyErr LimitsPropV
  | .single s => s.limitsProp
  | .multi m => m.limitsProp

/-- `MultiSpace.limits_not_set` (lines 1903-1908): `limits is None`,
with MultipleLimitsNotImplementedError caught as False. -/
def MultiSpaceData.limits_not_set (m : MultiSpaceData) : Except PyErr Bool :=
  match m.limitsProp with
  | .ok .noneP => .ok true
  | .ok _ => .ok false
  | .error .multipleLimitsNotImplemented => .ok false
  | .error e => .error e

/-- `MultiSpace.has_limits` (lines 1896-1901):
`(not limits_not_set) and limits is not False`, with
MultipleLimitsNotImplementedError caught as True. -/
def MultiSpaceData.has_limits (m : MultiSpaceData) : Except PyErr Bool := do
  let lns ← m.limits_not_set
  if lns then return false
  match m.limitsProp with
  | .ok v => return !(v == LimitsPropV.falseP)
  | .error .multipleLimitsNotImplemented => return true
  | .error e => throw e

def SpaceObj.has_limits : SpaceObj → Except PyErr Bool
  | .single s => s.has_limits
  | .multi m => m.has_limits

def SpaceObj.limits_not_set : SpaceObj → Except PyErr Bool
  | .single s => .ok s.limits_not_set
  | .multi m => m.limits_not_set

/-- `limits_are_false` is defined on `Space` only; accessing it on a
`MultiSpace` raises AttributeError. -/
def SpaceObj.limits_are_false : SpaceObj → Except PyErr Bool
  | .single s => s.limits_are_false
  | .multi _ => .error .attributeError

def spaceObjList : SpaceObj → List Space
  | .single s => [s]
  | .multi m => m.spaces

/-- Modelled from the spec: `len(space)` is resolved through the
`ZfitSpace` interface (`zfit/core/interfaces.py`), which is not under
`src/`; spec section 4.5 has iteration yield the alternatives of a
`MultiSpace` and the space itself otherwise, so `len` is taken as the
number of alternatives. -/
def spaceObjLen (so : SpaceObj) : Nat := (spaceObjList so).length

/-- `compare_limits_multispace` (lines 1705-1726): unequal lengths give
False; then `space2.with_coords(space1)` reorders (its exceptions
propagate); the first loop iteration then reads the misspelled attribute
`space22._limits_dic` (line 1717) and raises AttributeError — only empty
alternative lists (unreachable) would fall through to True. -/
def compare_limits_multispace (s1 s2 : SpaceObj) : Except PyErr Bool := do
  if spaceObjLen s1 ≠ spaceObjLen s2 then return false
  let _ ← s2.with_coords s1.coordsOf false true
  match spaceObjList s1 with
  | [] => return true
  | _ => throw .attributeError

/-- `compare_multispace` (lines 1666-1702): False unless the obs sets or
the axes sets coincide; unset (`None`) and explicitly-absent (`False`)
limits must match identically; otherwise the decomposed limits are
compared. -/
def compare_multispace (s1 s2 : SpaceObj) : Except PyErr Bool := do
  let axes_nn := s1.axesOf.isSome && s2.axesOf.isSome
  let obs_nn := s1.obsOf.isSome && s2.obsOf.isSome
  if !(axes_nn || obs_nn) then return false
  let axesOk := match s1.axesOf, s2.axesOf with
    | some a1, some a2 => sameSet a1 a2
    | _, _ => true
  if axes_nn && !axesOk then return false
  let obsOk := match s1.obsOf, s2.obsOf with
    | some o1, some o2 => sameSet o1 o2
    | _, _ => true
  if obs_nn && !obsOk then return false
  let lp1 ← s1.limitsProp
  match lp1 with
  | .noneP => do
    let lp2 ← s2.limitsProp
    match lp2 with
    | .noneP => return true
    | _ => return false
  | .falseP => do
    let lp2 ← s2.limitsProp
    match lp2 with
    | .falseP => return true
    | _ => return false
  | _ => compare_limits_multispace s1 s2

/-- `less_equal_space` (lines 1656-1658). -/
def less_equal_space (s1 s2 : SpaceObj) : Except PyErr Bool :=
  compare_multispace s1 s2

/-- `equal_space` (lines 1661-1663). -/
def equal_space (s1 s2 : SpaceObj) : Except PyErr Bool :=
  compare_multispace s1 s2

/-- The Python call protocol for
`less_equal_space(space1, space2, allow_graph=True)`: a call providing
fewer than two positional arguments raises TypeError before the body
runs. -/
def lessEqualSpaceCall (args : List SpaceObj) : Except PyErr Bool :=
  match args with
  | [a, b] => less_equal_space a b
  | _ => .error .typeError

/-- `isinstance(other, type(self))` for the two closed space classes. -/
def sameSpaceType : SpaceObj → SpaceObj → Bool
  | .single _, .single _ => true
  | .multi _, .multi _ => true
  | _, _ => false

/-- `BaseSpace.__le__` (lines 772-775): for a mismatched type,
NotImplemented is returned and the reflected `__ge__` (line 808) also
returns NotImplemented, so Python raises TypeError; for a matching type
the body calls `less_equal_space(other)` — a single positional argument
for a function requiring two, so the call raises TypeError. -/
def space_le (s1 s2 : SpaceObj) : Except PyErr Bool :=
  if sameSpaceType s1 s2 then lessEqualSpaceCall [s2]
  else .error .typeError

/-! ### `combine_spaces_new` (lines 1525-1653) -/

/-- Modelled from the spec: `common_obs` lives in `zfit.core.dimension`,
which is not under `src/`.  Spec section 4.6 describes the first step of
`combine_spaces_new` as computing "the union of dimension identifiers
(by name if any input has names, else by position)"; the union is the
ordered, deduplicated concatenation of the inputs' obs, and it is empty
(falsy) when not every input declares obs. -/
def common_obs (spaces : List SpaceObj) : List String :=
  if spaces.all (fun so => so.obsOf.isSome) then
    dedupFirst ((spaces.map (fun so => so.obsOf.getD [])).flatten)
  else []

/-- Modelled from the spec: `common_axes` from `zfit.core.dimension`,
the positional counterpart of `common_obs`. -/
def common_axes (spaces : List SpaceObj) : List Int :=
  if spaces.all (fun so => so.axesOf.isSome) then
    dedupFirst ((spaces.map (fun so => so.axesOf.getD [])).flatten)
  else []

/-- The per-call-site dispatch of `space.with_obs(all_obs,
allow_superset=True)` in `combine_spaces_new` (line 1553): the `Space`
method defaults `allow_subset=False` while the `MultiSpace` method
defaults `allow_subset=True`. -/
def spaceObjWithObsSuperset (so : SpaceObj) (obs : List String) :
    Except PyErr SpaceObj :=
  match so with
  | .single s => do
    let sp ← s.with_obs (some obs) true false
    pure (.single sp)
  | .multi m => m.with_obs (some obs) true true

/-- `space.with_axes(all_axes, allow_superset=True)` (line 1555), with
the same default difference. -/
def spaceObjWithAxesSuperset (so : SpaceObj) (axes : List Int) :
    Except PyErr SpaceObj :=
  match so with
  | .single s => do
    let sp ← s.with_axes (some axes) true false
    pure (.single sp)
  | .multi m => m.with_axes (some axes) true true

/-- One iteration of the per-coordinate loop of `combine_spaces_new`
(lines 1572-1589), obs scheme.  For each obs in the union: collect the
spaces declaring it (`coord in space.obs`, TypeError when obs is None);
reject MultiSpace members; `assert space_with_coord`; then for each such
space *append a generator expression* (line 1580/1584 — the expression is
never iterated, so `_extract_limits` never runs).  The `!=` between the
collected generator objects is object identity, so distinct generators
always compare unequal; `limits_dict[coord]` stores the first generator
under the bare string key. -/
def combineLoopObs (spaces : List SpaceObj) : List String →
    Except PyErr InnerDict
  | [] => .ok []
  | coord :: rest => do
    let swc ← filterME (fun so =>
      match so.obsOf with
      | some o => .ok (o.contains coord)
      | none => .error .typeError) spaces
    if swc.any (fun so =>
        match so with
        | .multi _ => true
        | .single _ => false) then
      throw .workInProgress
    if swc.isEmpty then throw .assertionError
    let limits_coord := List.range swc.length
    match limits_coord with
    | [] => throw .indexError
    | g0 :: gs =>
      if gs.any (fun g => g ≠ g0) then throw .limitsIncompatible
      else do
        let tail ← combineLoopObs spaces rest
        .ok ((PyKey.strK coord, Entry.genE g0) :: tail)

/-- The per-coordinate loop of `combine_spaces_new`, axes scheme; keys
are bare ints. -/
def combineLoopAxes (spaces : List SpaceObj) : List Int →
    Except PyErr InnerDict
  | [] => .ok []
  | coord :: rest => do
    let swc ← filterME (fun so =>
      match so.axesOf with
      | some a => .ok (a.contains coord)
      | none => .error .typeError) spaces
    if swc.any (fun so =>
        match so with
        | .multi _ => true
        | .single _ => false) then
      throw .workInProgress
    if swc.isEmpty then throw .assertionError
    let limits_coord := List.range swc.length
    match limits_coord with
    | [] => throw .indexError
    | g0 :: gs =>
      if gs.any (fun g => g ≠ g0) then throw .limitsIncompatible
      else do
        let tail ← combineLoopAxes spaces rest
        .ok ((PyKey.intK coord, Entry.genE g0) :: tail)

/-- `combine_spaces_new` (lines 1525-1653): compute the obs/axes union,
reorder every input onto it (superset allowed), evaluate the three
limit-definedness summaries, pick `False`/`None`/the per-coordinate
merged dict accordingly, and build the resulting `Space`. -/
def combine_spaces_new (spaces0 : List SpaceObj) : Except PyErr SpaceObj := do
  let all_obs := common_obs spaces0
  let all_axes := common_axes spaces0
  let using_obs := !all_obs.isEmpty
  let spaces ←
    if using_obs then
      mapME (fun so => spaceObjWithObsSuperset so all_obs) spaces0
    else if !all_axes.isEmpty then
      mapME (fun so => spaceObjWithAxesSuperset so all_axes) spaces0
    else throw .coordinatesUnderdefined
  let falses ← mapME SpaceObj.limits_are_false spaces
  let all_limits_false := falses.all id
  let notsets ← mapME SpaceObj.limits_not_set spaces
  let all_limits_not_set := notsets.all id
  let hls ← mapME SpaceObj.has_limits spaces
  let limits : SLimArg ←
    if all_limits_false then pure .falseSL
    else if all_limits_not_set then pure .noneSL
    else if !(hls.all id) then throw .limitsIncompatible
    else do
      let innerD ←
        if using_obs then combineLoopObs spaces all_obs
        else combineLoopAxes spaces all_axes
      pure (.dictSL [(PyKey.strK (if using_obs then ("obs") else ("axes")),
                      OuterVal.dictO innerD)])
  let so ← spaceInit (if using_obs then .listO all_obs else .noneO) limits
    (if !all_axes.isEmpty then .listX all_axes else .noneX) .noneSL .defaultN
  return .single so

/-! ### Concrete instances used by the claims -/

/-- The `Limit` of `Space(obs=['x'], limits=([0],[1]))`. -/
def limitX01 : Limit :=
  ⟨.noneF, .rectS [.concrete 0] [.concrete 1], some 1, some true⟩

/-- `Space(obs=['x'], limits=([0],[1]))`. -/
def spaceX01 : Space :=
  ⟨⟨some ["x"], none⟩,
   [(.strK ("obs"), .dictO [(.obsTupK ["x"], .limitE limitX01)])],
   "Space"⟩

/-- The `Limit` of `Space(obs=['y'], limits=([0],[2]))`. -/
def limitY02 : Limit :=
  ⟨.noneF, .rectS [.concrete 0] [.concrete 2], some 1, some true⟩

/-- `Space(obs=['y'], limits=([0],[2]))`. -/
def spaceY02 : Space :=
  ⟨⟨some ["y"], none⟩,
   [(.strK ("obs"), .dictO [(.obsTupK ["y"], .limitE limitY02)])],
   "Space"⟩

/-- `Space(obs=['x'])` — no limits given. -/
def spaceXunset : Space :=
  ⟨⟨some ["x"], none⟩,
   [(.strK ("obs"), .dictO [(.obsTupK ["x"], .limitE ⟨.noneF, .unsetS, some 1, none⟩)])],
   "Space"⟩


/-! ### Helper lemmas about the reordering machinery -/

theorem okBind (a : α) (f : α → Except PyErr β) : (Except.ok a >>= f) = f a := rfl

theorem errBind (e : PyErr) (f : α → Except PyErr β) :
    ((Except.error e : Except PyErr α) >>= f) = Except.error e := rfl

theorem mapME_nil (f : α → Except PyErr β) : mapME f [] = Except.ok [] := rfl

theorem mapME_cons (f : α → Except PyErr β) (x : α) (xs : List α) :
    mapME f (x :: xs) =
      (f x >>= fun y => mapME f xs >>= fun ys => Except.ok (y :: ys)) := rfl

theorem pyIndex_ok [DecidableEq α] (x : α) :
    ∀ (l : List α), x ∈ l →
      ∃ i, pyIndex l x = Except.ok i ∧ l[i]? = some x := by
  intro l
  induction l with
  | nil => intro h; cases h
  | cons a as ih =>
    intro h
    by_cases hax : a = x
    · exact ⟨0, by simp [pyIndex, hax], by simp [hax]⟩
    · have hmem : x ∈ as := by
        cases h with
        | head => exact absurd rfl hax
        | tail _ h2 => exact h2
      obtain ⟨i, h1, h2⟩ := ih hmem
      refine ⟨i + 1, ?_, by simpa using h2⟩
      simp [pyIndex, hax, h1, Except.map]

theorem mapME_pyIndex_ok [DecidableEq α] (old : List α) :
    ∀ (req : List α), (∀ x ∈ req, x ∈ old) →
      ∃ is, mapME (pyIndex old) req = Except.ok is ∧
        List.Forall₂ (fun x i => old[i]? = some x) req is := by
  intro req
  induction req with
  | nil => intro _; exact ⟨[], rfl, List.Forall₂.nil⟩
  | cons a as ih =>
    intro h
    obtain ⟨i, hi1, hi2⟩ := pyIndex_ok a old (h a (by simp))
    obtain ⟨is, h1, h2⟩ := ih (fun x hx => h x (by simp [hx]))
    refine ⟨i :: is, ?_, List.Forall₂.cons hi2 h2⟩
    rw [mapME_cons, hi1, okBind, h1, okBind]

theorem reorderList_getvals (old : List α) (req : List α) (is : List Nat)
    (h : List.Forall₂ (fun x i => old[i]? = some x) req is) :
    reorderList is old = Except.ok req := by
  induction h with
  | nil => rfl
  | cons h1 _ ih =>
    simp only [reorderList] at ih ⊢
    rw [mapME_cons, h1]
    rw [okBind, ih, okBind]

theorem forall2_bound (old : List α) (req : List α) (is : List Nat)
    (h : List.Forall₂ (fun x i => old[i]? = some x) req is) :
    ∀ i ∈ is, i < old.length := by
  induction h with
  | nil => intro i hi; cases hi
  | cons h1 _ ih =>
    intro i hi
    cases hi with
    | head => exact (List.getElem?_eq_some.mp h1).1
    | tail _ h2 => exact ih i h2

theorem reorderList_ok_of_bounds (xs : List β) :
    ∀ (is : List Nat), (∀ i ∈ is, i < xs.length) →
      ∃ r, reorderList is xs = Except.ok r ∧ r.length = is.length := by
  intro is
  induction is with
  | nil => intro _; exact ⟨[], rfl, rfl⟩
  | cons i is' ih =>
    intro h
    have hi : i < xs.length := h i (by simp)
    obtain ⟨r, h1, h2⟩ := ih (fun j hj => h j (by simp [hj]))
    refine ⟨xs[i] :: r, ?_, by simp [h2]⟩
    simp only [reorderList] at h1 ⊢
    rw [mapME_cons, List.getElem?_eq_getElem hi]
    rw [okBind, h1, okBind]

theorem sameSet_refl [DecidableEq α] (l : List α) : sameSet l l = true := by
  simp only [sameSet, Bool.and_eq_true, List.all_eq_true]
  exact ⟨fun x hx => by simpa using hx, fun x hx => by simpa using hx⟩

theorem filter_contains_self [DecidableEq α] (l : List α) :
    l.filter (fun x => l.contains x) = l :=
  List.filter_eq_self.mpr (fun a ha => by simpa using ha)

/-- Reordering a `Coordinates` by its own obs succeeds, keeps the obs,
keeps absent axes absent, and the result is `__eq__`-equal to the
original. -/
theorem with_obs_self_ok (c : Coordinates) (o : List String)
    (hobs : c.obs = some o) (hval : coordsValid c = true) :
    ∃ c', c.with_obs (some o) false false = Except.ok c' ∧ c'.obs = some o ∧
      (c.axes = none → c'.axes = none) ∧ coordsEq c' c = true := by
  obtain ⟨cobs, cax⟩ := c
  obtain rfl : cobs = some o := hobs
  obtain ⟨is, hmap, hfa⟩ := mapME_pyIndex_ok o o (fun x hx => hx)
  have hfe : List.filter (fun x => decide (x ∈ o)) o = o :=
    List.filter_eq_self.mpr (fun a ha => by simpa using ha)
  have hgri : Coordinates.get_reorder_indices ⟨some o, cax⟩ (some o) none
      = Except.ok is := by
    simp [Coordinates.get_reorder_indices, hfe, hmap]
  have hro : reorderList is o = Except.ok o := reorderList_getvals o o is hfa
  cases cax with
  | none =>
    refine ⟨⟨some o, none⟩, ?_, rfl, fun _ => rfl,
      by simp [coordsEq, sameSet_refl]⟩
    simp [Coordinates.with_obs, sameSet_refl, hgri, hro, okBind, mkCoordinates]
  | some a =>
    have hlen : o.length = a.length := by
      simpa [coordsValid] using hval
    have hbound : ∀ i ∈ is, i < a.length := by
      intro i hi
      have := forall2_bound o o is hfa i hi
      omega
    obtain ⟨r, hr1, hr2⟩ := reorderList_ok_of_bounds a is hbound
    have hlen2 : o.length = r.length := by
      have := hfa.length_eq
      omega
    refine ⟨⟨some o, some r⟩, ?_, rfl, by intro h; simp at h,
      by simp [coordsEq, sameSet_refl]⟩
    simp [Coordinates.with_obs, sameSet_refl, hgri, hro, hr1, okBind,
      mkCoordinates, hlen2]

/-- `Space.with_obs` by the space's own obs (axes absent): the result is
the same space rebuilt with the default name. -/
theorem space_with_obs_self (s : Space) (o : List String)
    (hobs : s.coords.obs = some o) (hax : s.coords.axes = none) :
    Space.with_obs s (some o) false false =
      Except.ok ⟨⟨some o, none⟩, s.limits_dict, "Space"⟩ := by
  obtain ⟨c, d, nm⟩ := s
  have hobs' : c.obs = some o := hobs
  have hax' : c.axes = none := hax
  obtain ⟨c', hc1, hc2, hc3, _⟩ :=
    with_obs_self_ok c o hobs' (by simp [coordsValid, hobs', hax'])
  have hcc : c' = ⟨some o, none⟩ := by rw [← hc2, ← hc3 hax']
  simp only [Space.with_obs]
  rw [hc1, okBind, hcc]
  rfl

/-- `Space.with_axes(None)` on a space without axes returns the space
itself. -/
theorem space_with_axes_none_self (s : Space) (hax : s.coords.axes = none) :
    Space.with_axes s none false false = Except.ok s := by
  obtain ⟨⟨cobs, cax⟩, d, nm⟩ := s
  obtain rfl : cax = none := hax
  rfl

/-- C3 (amended): `add_spaces_new(A, A)` collapses to a single Space
exactly when `A` has no limits — the announced reduction of common
limits in `MultiSpace` is unimplemented (a bare `pass`), so with limits
set the result keeps both identical alternatives (see the
counterexample).  Here: for every Space `A` with obs defined, no axes
and no limits, `add_spaces_new(A, A)` returns the single collapsed
Space over the same obs and limits dict. -/
theorem C3_add_self_amended (A : Space) (o : List String)
    (h1 : A.coords.obs = some o) (h2 : A.coords.axes = none)
    (h3 : A.has_limits = Except.ok false) :
    add_spaces_new [.single A, .single A] =
      Except.ok (.single (⟨⟨some o, none⟩, A.limits_dict, "Space"⟩ : Space)) := by
  set A' : Space := ⟨⟨some o, none⟩, A.limits_dict, "Space"⟩ with hA'
  have hwo : Space.with_obs A (some o) false false = Except.ok A' :=
    space_with_obs_self A o h1 h2
  have hwa : Space.with_axes A' none false false = Except.ok A' :=
    space_with_axes_none_self A' rfl
  have hs : A.coords.obs.isSome = true := by rw [h1]; rfl
  have h3' : hasLimitsAux true A.limits_dict = Except.ok false := by
    have heq : A.has_limits = hasLimitsAux A.coords.obs.isSome A.limits_dict := rfl
    rw [heq, hs] at h3
    exact h3
  have hhl : A'.has_limits = Except.ok false := h3'
  have hstep : msLimitsStep [A', A'] (some o) none =
      Except.ok ([A'], some o, none) := by
    simp only [msLimitsStep, allME, anyME, hhl, okBind]
    rfl
  have hcc : msCheckConvert [.single A, .single A] none none =
      Except.ok ([A'], some o, none) := by
    simp only [msCheckConvert, flattenSpaces, List.map, List.flatten,
      List.append_nil, List.all_cons, List.all_nil, hs, h2, h1, Option.isSome_none,
      Bool.and_true, Bool.and_false, Bool.false_and, Bool.and_self, Bool.not_false]
    simp [mapME, hwo, hwa, okBind, hstep, h1, h2, hs]
  simp only [add_spaces_new, msNew]
  rw [hcc, okBind]
  rfl

/-! ### The claims -/

/-- The Space produced by
`combine_spaces_new(Space(obs=['x'], limits=([0],[1])),
Space(obs=['y'], limits=([0],[2])))`: the per-obs entries are the
unevaluated generator objects appended at line 1580. -/
def combinedXY : Space :=
  ⟨⟨some ["x", "y"], none⟩,
   [(.strK ("obs"), .dictO [(.strK ("x"), .genE 0), (.strK ("y"), .genE 0)])],
   "Space"⟩

/-- C1 (code bug): `combine_spaces_new` on the two 1-d spaces does
return a Space whose obs is `('x','y')`, but its stored limits are
unevaluated generator objects — `limits_coord.append(<genexpr>)` on line
1580 never materializes `_extract_limits` — so `rect_lower` and
`rect_upper` raise AttributeError instead of returning `[0,0]` and
`[1,2]` as the claim (and the function's own docstring) state. -/
theorem C1_combine_code_bug :
    combine_spaces_new [.single spaceX01, .single spaceY02] =
      Except.ok (.single combinedXY) ∧
    combinedXY.coords.obs = some ["x", "y"] ∧
    Space.rect_lower combinedXY = Except.error PyErr.attributeError ∧
    Space.rect_upper combinedXY = Except.error PyErr.attributeError :=
  ⟨rfl, rfl, rfl, rfl⟩

/-- C2 (code bug): `Space.copy` updates the kwargs with the overrides
*before* computing `set(overwrite_kwargs) - set(kwargs)`, so the
intended KeyError is unreachable.  The non-structural override key
`rect_limits` is silently forwarded to the constructor — which ignores
it because `limits` is a dict — and `copy(rect_limits=([0],[5]))`
returns a Space equal to the original without raising; a key that is
not a constructor parameter raises only the call-protocol TypeError. -/
theorem C2_copy_code_bug :
    Space.copy spaceX01
        [("rect_limits", KwVal.pairKV (.vecB [.concrete 0]) (.vecB [.concrete 5]))] =
      Except.ok spaceX01 ∧
    Space.copy spaceX01 [("foo", KwVal.noneK)] = Except.error PyErr.typeError :=
  ⟨rfl, rfl⟩

/-- C3 (counterexample): for the Space `A = Space(obs=['x'],
limits=([0],[1]))`, which has limits set, `add_spaces_new(A, A)` does
*not* collapse to `A`: it returns a MultiSpace holding two identical
alternatives. -/
theorem C3_add_self_counterexample :
    add_spaces_new [.single spaceX01, .single spaceX01] =
      Except.ok (.multi ⟨⟨some ["x"], none⟩, [spaceX01, spaceX01], "MultiSpace"⟩) :=
  rfl

/-- Witness for C3 (amended) at `Space(obs=['x'])` with no limits. -/
theorem C3_add_self_amended_witness :
    spaceXunset.coords.obs = some ["x"] ∧ spaceXunset.coords.axes = none ∧
    spaceXunset.has_limits = Except.ok false ∧
    add_spaces_new [.single spaceXunset, .single spaceXunset] =
      Except.ok (.single
        (⟨⟨some ["x"], none⟩, spaceXunset.limits_dict, "Space"⟩ : Space)) :=
  ⟨rfl, rfl, rfl, C3_add_self_amended spaceXunset ["x"] rfl rfl rfl⟩

/-- C4 (counterexample): with both flags False, requesting a disjoint
obs set does *not* raise: `Coordinates(obs=('x',)).with_obs(('y',))`
returns a Coordinates with empty obs — the superset and subset checks
both pass for partially-overlapping or disjoint sets and the request is
silently reduced to the intersection. -/
theorem C4_with_obs_counterexample :
    Coordinates.with_obs ⟨some ["x"], none⟩ (some ["y"]) false false =
      Except.ok ⟨some [], none⟩ :=
  rfl

/-- C4 (amended): with `allow_superset=False, allow_subset=False` and a
requested obs set different from the current one, `with_obs` raises
ObsIncompatibleError exactly when the request is a proper superset or a
proper subset of the current set; a partially-overlapping or disjoint
request does not raise and yields the intersection in requested
order. -/
theorem C4_with_obs_amended (c : Coordinates) (o l : List String)
    (hobs : c.obs = some o) (hval : coordsValid c = true)
    (hne : sameSet l o = false) :
    (isSubsetOf o l = true →
      c.with_obs (some l) false false = Except.error PyErr.obsIncompatible) ∧
    (isSubsetOf l o = true →
      c.with_obs (some l) false false = Except.error PyErr.obsIncompatible) ∧
    (isSubsetOf o l = false → isSubsetOf l o = false →
      ∃ c', c.with_obs (some l) false false = Except.ok c') := by
  obtain ⟨cobs, cax⟩ := c
  obtain rfl : cobs = some o := hobs
  refine ⟨?_, ?_, ?_⟩
  · intro hsup
    simp [Coordinates.with_obs, hne, hsup]
  · intro hsub
    have hrel : sameSet l o = (isSubsetOf l o && isSubsetOf o l) := rfl
    have hsup : isSubsetOf o l = false := by
      rw [hrel, hsub] at hne
      simpa using hne
    simp [Coordinates.with_obs, hne, hsub, hsup]
  · intro hsup hsub
    have hmem : ∀ x ∈ l.filter (fun x => decide (x ∈ o)), x ∈ o := by
      intro x hx
      exact of_decide_eq_true (List.mem_filter.mp hx).2
    obtain ⟨is, hmap, hfa⟩ := mapME_pyIndex_ok o _ hmem
    have hgri : Coordinates.get_reorder_indices ⟨some o, cax⟩ (some l) none
        = Except.ok is := by
      simp [Coordinates.get_reorder_indices, hmap]
    have hro : reorderList is o =
        Except.ok (l.filter (fun x => decide (x ∈ o))) :=
      reorderList_getvals o _ is hfa
    cases cax with
    | none =>
      refine ⟨⟨some (l.filter (fun x => decide (x ∈ o))), none⟩, ?_⟩
      simp [Coordinates.with_obs, hne, hsup, hsub, hgri, hro, okBind,
        mkCoordinates]
    | some a =>
      have hlen : o.length = a.length := by simpa [coordsValid] using hval
      have hbound : ∀ i ∈ is, i < a.length := by
        intro i hi
        have := forall2_bound o _ is hfa i hi
        omega
      obtain ⟨r, hr1, hr2⟩ := reorderList_ok_of_bounds a is hbound
      have hlenf : (l.filter (fun x => decide (x ∈ o))).length = r.length := by
        have := hfa.length_eq
        omega
      refine ⟨⟨some (l.filter (fun x => decide (x ∈ o))), some r⟩, ?_⟩
      simp [Coordinates.with_obs, hne, hsup, hsub, hgri, hro, hr1, okBind,
        mkCoordinates, hlenf]

/-- Witness for C4 (amended) at obs `('x','y')` and the partially
overlapping request `('y','z')`. -/
theorem C4_with_obs_amended_witness :
    (⟨some ["x", "y"], none⟩ : Coordinates).obs = some ["x", "y"] ∧
    coordsValid ⟨some ["x", "y"], none⟩ = true ∧
    sameSet ["y", "z"] ["x", "y"] = false ∧
    ((isSubsetOf ["x", "y"] ["y", "z"] = true →
      Coordinates.with_obs ⟨some ["x", "y"], none⟩ (some ["y", "z"]) false false =
        Except.error PyErr.obsIncompatible) ∧
    (isSubsetOf ["y", "z"] ["x", "y"] = true →
      Coordinates.with_obs ⟨some ["x", "y"], none⟩ (some ["y", "z"]) false false =
        Except.error PyErr.obsIncompatible) ∧
    (isSubsetOf ["x", "y"] ["y", "z"] = false →
      isSubsetOf ["y", "z"] ["x", "y"] = false →
      ∃ c', Coordinates.with_obs ⟨some ["x", "y"], none⟩ (some ["y", "z"]) false false =
        Except.ok c')) :=
  ⟨rfl, rfl, by decide,
    C4_with_obs_amended ⟨some ["x", "y"], none⟩ ["x", "y"] ["y", "z"] rfl rfl
      (by decide)⟩

/-- C5 (counterexample): the `Coordinates` constructor performs no
duplicate check — `Coordinates(obs=('x','x'))` is accepted and stores
the duplicated obs tuple, so the no-duplicates invariant is not
established by construction. -/
theorem C5_duplicates_counterexample :
    mkCoordinates (some ["x", "x"]) none = Except.ok ⟨some ["x", "x"], none⟩ ∧
    ¬ (["x", "x"] : List String).Nodup :=
  ⟨rfl, by decide⟩

/-- C5 (amended): construction stores any obs-only tuple verbatim —
duplicated identifiers included — without a duplicate check; no
no-duplicates invariant is enforced. -/
theorem C5_duplicates_amended (o : List String) :
    mkCoordinates (some o) none = Except.ok ⟨some o, none⟩ :=
  rfl

/-- C6: membership in a rectangular limit is a closed-interval test:
for the box `[0,0]..[1,1]`, the interior point `(1/2, 1/2)` is inside,
`(3/2, 1/2)` is outside, and the boundary point `(1, 1)` is inside. -/
theorem C6_inside_closed_box :
    inside_rect_limits [[1/2, 1/2]] [0, 0] [1, 1] = [true] ∧
    inside_rect_limits [[3/2, 1/2]] [0, 0] [1, 1] = [false] ∧
    inside_rect_limits [[1, 1]] [0, 0] [1, 1] = [true] := by
  refine ⟨?_, ?_, ?_⟩ <;> simp [inside_rect_limits] <;> norm_num

/-- C7: the bound sentinels are total-order surrogates: for every value
`v`, `ANY_LOWER <= v` is True and `ANY_LOWER > v` is False; `ANY_UPPER
>= v` is True and `ANY_UPPER < v` is False; and `ANY` compares True
under every order relation against every value. -/
theorem C7_sentinel_order {α : Type} (v : α) :
    sentinelLe Sentinel.anyLowerS v = true ∧
    sentinelGt Sentinel.anyLowerS v = false ∧
    sentinelGe Sentinel.anyUpperS v = true ∧
    sentinelLt Sentinel.anyUpperS v = false ∧
    sentinelLt Sentinel.anyS v = true ∧
    sentinelLe Sentinel.anyS v = true ∧
    sentinelGe Sentinel.anyS v = true ∧
    sentinelGt Sentinel.anyS v = true :=
  ⟨rfl, rfl, rfl, rfl, rfl, rfl, rfl, rfl⟩

/-- C8: reordering a `Coordinates` by its own observables succeeds and
the result is `__eq__`-equal to the original:
`c.with_obs(c.obs) == c`. -/
theorem C8_with_obs_identity (c : Coordinates) (o : List String)
    (hobs : c.obs = some o) (hval : coordsValid c = true) :
    ∃ c', c.with_obs (some o) false false = Except.ok c' ∧
      coordsEq c' c = true := by
  obtain ⟨c', h1, _, _, h4⟩ := with_obs_self_ok c o hobs hval
  exact ⟨c', h1, h4⟩

/-- Witness for C8 at `Coordinates(obs=('a','b'), axes=(0,1))`. -/
theorem C8_with_obs_identity_witness :
    (⟨some ["a", "b"], some [0, 1]⟩ : Coordinates).obs = some ["a", "b"] ∧
    coordsValid ⟨some ["a", "b"], some [0, 1]⟩ = true ∧
    ∃ c', Coordinates.with_obs ⟨some ["a", "b"], some [0, 1]⟩
        (some ["a", "b"]) false false = Except.ok c' ∧
      coordsEq c' ⟨some ["a", "b"], some [0, 1]⟩ = true :=
  ⟨rfl, rfl,
    C8_with_obs_identity ⟨some ["a", "b"], some [0, 1]⟩ ["a", "b"] rfl rfl⟩

/-- C9: for every pair of Limits whose bounds cannot be resolved to
concrete numbers, `less_equal` and `equal` raise
IllegalInGraphModeError (the deferred-evaluation-disallowed error) with
`allow_graph=False`, and return a (possibly unresolved) Boolean instead
of raising with `allow_graph=True`, on the same inputs. -/
theorem C9_deferred_comparison (l1 l2 : Limit)
    (h : resolvePair l1 l2 = Except.error PyErr.cannotConvertToNumpy) :
    less_equal_limits l1 l2 false = Except.error PyErr.illegalInGraphMode ∧
    (∃ r, less_equal_limits l1 l2 true = Except.ok r) ∧
    equal_limits l1 l2 false = Except.error PyErr.illegalInGraphMode ∧
    (∃ r, equal_limits l1 l2 true = Except.ok r) := by
  refine ⟨?_, ⟨.symbolicR, ?_⟩, ?_, ⟨.symbolicR, ?_⟩⟩ <;>
    simp [less_equal_limits, equal_limits, h]

/-- A 1-d Limit whose lower bound is a deferred value. -/
def limitDeferred : Limit :=
  ⟨.noneF, .rectS [.deferredV 0] [.concrete 1], some 1, some true⟩

/-- Witness for C9 at a Limit with a deferred lower bound compared
against the concrete `([0], [1])` Limit. -/
theorem C9_deferred_comparison_witness :
    resolvePair limitDeferred limitX01 =
      Except.error PyErr.cannotConvertToNumpy ∧
    (less_equal_limits limitDeferred limitX01 false =
        Except.error PyErr.illegalInGraphMode ∧
      (∃ r, less_equal_limits limitDeferred limitX01 true = Except.ok r) ∧
      equal_limits limitDeferred limitX01 false =
        Except.error PyErr.illegalInGraphMode ∧
      (∃ r, equal_limits limitDeferred limitX01 true = Except.ok r)) :=
  ⟨rfl, C9_deferred_comparison limitDeferred limitX01 rfl⟩

/-- C10: `s1 <= s2` between two spaces of the same type never returns a
Boolean: `BaseSpace.__le__` calls the two-argument `less_equal_space`
with a single argument, so the call raises TypeError. -/
theorem C10_le_always_raises (s1 s2 : SpaceObj)
    (h : sameSpaceType s1 s2 = true) :
    space_le s1 s2 = Except.error PyErr.typeError := by
  simp [space_le, h, lessEqualSpaceCall]

/-- Witness for C10 at two equal rectangular spaces. -/
theorem C10_le_always_raises_witness :
    sameSpaceType (.single spaceX01) (.single spaceX01) = true ∧
    space_le (.single spaceX01) (.single spaceX01) =
      Except.error PyErr.typeError :=
  ⟨rfl, C10_le_always_raises (.single spaceX01) (.single spaceX01) rfl⟩
